import Mathlib

/-!
Verification of the git-sms command interpretation and summarization pipeline.

The development shallowly embeds the Python sources (`src/main.py`,
`src/summarizers.py`, `src/natural_language_router.py`, `src/commands.py`).
Python strings are modelled as Lean `String` values with the relevant string
operations implemented character-wise; Python exceptions are modelled with
`Except PyErr`; the external collaborators (GitHub HTTP calls, the LLM
completion client, `json.loads`, the `tiktoken` encoder) are oracles supplied
through an environment record `Env`, mirroring that the repository treats them
as black boxes reached over the network or via a library call.
-/

/-! ## Python string primitives (character-list level) -/

/-- Model of Python whitespace for `str.strip()` / `str.split()`
(ASCII whitespace characters). -/
def pws (c : Char) : Bool :=
  c == ' ' || c == '\t' || c == '\n' || c == '\r' || c == '\x0b' || c == '\x0c'

/-- Boolean list-prefix test (model of `str.startswith` on character lists). -/
def lpre : List Char → List Char → Bool
  | [], _ => true
  | _ :: _, [] => false
  | a :: as, b :: bs => a == b && lpre as bs

/-- Boolean substring test (model of Python `in` on strings). -/
def lsub (needle : List Char) : List Char → Bool
  | [] => lpre needle []
  | c :: cs => lpre needle (c :: cs) || lsub needle cs

/-- Strip characters satisfying `p` from both ends
(model of `str.strip()` / `str.strip("x")`). -/
def lstrip (p : Char → Bool) (l : List Char) : List Char :=
  ((l.dropWhile p).reverse.dropWhile p).reverse

/-- Whitespace split discarding empty fields (model of `str.split()`). -/
def lsplitWs : List Char → List (List Char)
  | [] => []
  | c :: cs =>
    if pws c then lsplitWs cs
    else
      match cs with
      | [] => [[c]]
      | d :: ds =>
        if pws d then [c] :: lsplitWs ds
        else
          match lsplitWs (d :: ds) with
          | [] => [[c]]
          | t :: ts => (c :: t) :: ts

/-- First-occurrence split on a separator (model of `str.split(sep, 1)`,
`none` when the separator does not occur, in which case Python returns the
one-element list `[text]`). -/
def lsplitOnce (sep : List Char) : List Char → Option (List Char × List Char)
  | [] => if lpre sep [] then some ([], []) else none
  | c :: cs =>
    if lpre sep (c :: cs) then some ([], (c :: cs).drop sep.length)
    else (lsplitOnce sep cs).map (fun p => (c :: p.1, p.2))

/-- Split on every occurrence of a single character
(model of `str.split("/")`). -/
def lsplitChar (sep : Char) : List Char → List (List Char)
  | [] => [[]]
  | c :: cs =>
    let r := lsplitChar sep cs
    if c == sep then [] :: r
    else
      match r with
      | [] => [[c]]
      | t :: ts => (c :: t) :: ts

/-! ## Python string operations on `String` -/

/-- Model of `str.lower()` (character-wise). -/
def pyLower (s : String) : String := ⟨s.data.map Char.toLower⟩

/-- Model of `str.startswith(p)`. -/
def pyStartsWith (p s : String) : Bool := lpre p.data s.data

/-- Model of Python `sub in s`. -/
def pyContains (s sub : String) : Bool := lsub sub.data s.data

/-- Model of `str.strip()` (whitespace on both ends). -/
def pyStrip (s : String) : String := ⟨lstrip pws s.data⟩

/-- Model of `str.strip(chars)` for a one-character argument, as in
`raw.strip("\x60")`. -/
def pyStripChar (c : Char) (s : String) : String := ⟨lstrip (· == c) s.data⟩

/-- Model of `str.split()`. -/
def pySplit (s : String) : List String := (lsplitWs s.data).map (⟨·⟩)

/-- Model of `str.split(sep, 1)` in the two-field case; `none` models the
one-field result (which makes a two-name unpacking raise `ValueError`). -/
def pySplitOnce (sep s : String) : Option (String × String) :=
  (lsplitOnce sep.data s.data).map (fun p => (⟨p.1⟩, ⟨p.2⟩))

/-- Model of `str.split(sep)` for a one-character separator. -/
def pySplitChar (c : Char) (s : String) : List String :=
  (lsplitChar c s.data).map (⟨·⟩)

/-- Model of `sep.join(xs)`. -/
def pyJoin (sep : String) : List String → String
  | [] => ""
  | [x] => x
  | x :: y :: rest => x ++ sep ++ pyJoin sep (y :: rest)

/-- Model of `str.isdigit()` restricted to ASCII digits. -/
def pyIsdigit (s : String) : Bool :=
  !s.data.isEmpty && s.data.all (fun c => c.isDigit)

/-- Model of `int(s)` on an all-digit string. -/
def pyInt (s : String) : Nat :=
  s.data.foldl (fun a c => a * 10 + (c.toNat - 48)) 0

/-- Python truthiness coercion `s or fb` for strings. -/
def pyOrStr (s fb : String) : String := if s == "" then fb else s

/-- Python truthiness coercion `o or fb` for an optional string
(`None` and `""` are falsy). -/
def pyOrOpt (o : Option String) (fb : String) : String :=
  match o with
  | none => fb
  | some s => if s == "" then fb else s

/-! ## Data model: exceptions, collaborator outcomes, JSON values -/

/-- Python exception kinds relevant to the embedded code. -/
inductive PyErr where
  | typeError | valueError | attrError | jsonError | netError | indexError
deriving DecidableEq, Repr

/-- Outcome of an `httpx.get` call: either the call raises (transport
failure), or it returns a response with a success flag (`is_success`) and a
decoded JSON payload. -/
inductive Fetch (α : Type) where
  | raise (e : PyErr)
  | resp (ok : Bool) (payload : α)

/-- Outcome of one chat-completion call: the request raises, returns no
choices (so `choices[0]` raises `IndexError`), or returns the content of the
first choice. -/
inductive LLMResult where
  | raise (e : PyErr)
  | noChoices
  | content (s : String)

/-- Python value as produced by `json.loads`. -/
inductive PyVal where
  | none
  | bool (b : Bool)
  | int (n : Int)
  | str (s : String)
  | list (xs : List PyVal)
  | dict (kvs : List (String × PyVal))

/-- Python truthiness of a value. -/
def pyTruthy : PyVal → Bool
  | .none => false
  | .bool b => b
  | .int n => n != 0
  | .str s => s != ""
  | .list xs => !xs.isEmpty
  | .dict kvs => !kvs.isEmpty

/-- Model of `d.get(k)` on a dict (missing key yields `None`). -/
def dictGet (kvs : List (String × PyVal)) (k : String) : PyVal :=
  match kvs.find? (fun kv => kv.1 == k) with
  | some kv => kv.2
  | Option.none => .none

/-- Model of `d[k] = v` on a dict. -/
def dictSet : List (String × PyVal) → String → PyVal → List (String × PyVal)
  | [], k, v => [(k, v)]
  | (k', v') :: rest, k, v =>
    if k' == k then (k, v) :: rest else (k', v') :: dictSet rest k v

/-- Model of Python `v == s` comparing an arbitrary value against a string
literal: only equal string values compare equal. -/
def pvEqStr (v : PyVal) (s : String) : Bool :=
  match v with
  | .str t => t == s
  | _ => false

/-- Rendering of a value where the source interpolates it into an f-string or
passes it to a collaborator expecting a name; only string values carry text. -/
def pyRender : PyVal → String
  | .str s => s
  | _ => ""

/-! ## Tokenizer (Budget Gate) -/

/-- A `tiktoken` encoder as used by the source: a pair of `encode`/`decode`
functions (`summarizers.py` passes the encoder object around explicitly). -/
structure Encoding where
  encode : String → List Nat
  decode : List Nat → String

/-- Embeds `num_tokens` (summarizers.py lines 45-56):
`len(encoder.encode(text))`. -/
def num_tokens (text : String) (encoder : Encoding) : Nat :=
  (encoder.encode text).length

/-- Embeds `truncate_text` (summarizers.py lines 59-71):
`encoder.decode(encoder.encode(text)[:token_limit])`. -/
def truncate_text (text : String) (token_limit : Nat) (encoder : Encoding) : String :=
  encoder.decode ((encoder.encode text).take token_limit)

/-- Limit constants from summarizers.py lines 21-23 and main.py lines 18-19. -/
def MAX_TOKENS : Nat := 16000

/-- Maximum response length (`ASK_OPENAI_MAX_LENGTH`), defined in both
summarizers.py (line 23, unused there) and main.py (line 19). -/
def ASK_OPENAI_MAX_LENGTH : Nat := 1000

/-! ## Collaborator payload shapes -/

/-- Repository metadata fields read by `summarize_any_repo`; each field is the
text the f-string renders for it (`repo.get(...)`, with `None` rendered as
the string `"None"` by the f-string). -/
structure RepoJson where
  name : String
  owner : String
  description : String
  stars : String
  forks : String
  language : String

/-- Issue fields read by the issue summarizers (`number`, `title`, and
`body` via `.get("body", "")`). -/
structure IssueJson where
  number : Nat
  title : String
  body : String

/-- A repository search candidate (`name`, `full_name`, nullable
`description`). -/
structure RepoItem where
  name : String
  full_name : String
  description : Option String

/-- The oracle environment: per-request outcomes of every external
collaborator the pipeline reaches (GitHub fetches, the LLM client,
`json.loads`) together with the `tiktoken` encoder returned by
`get_encoder()`. The LLM and JSON oracles are functions of their input text. -/
structure Env where
  enc : Encoding
  repoFetch : Fetch RepoJson
  readmeFetch : Fetch String
  issuesFetch : Fetch (List IssueJson)
  issueFetch : Fetch IssueJson
  commentsFetch : Fetch (List String)
  searchFetch : Fetch (List RepoItem)
  llm : String → LLMResult
  jsonLoads : String → Except PyErr PyVal

/-! ## Summarization pipeline (summarizers.py) -/

/-- Embeds `ask_openai` (summarizers.py lines 74-107): both client branches
return the stripped content of the first choice; any exception inside the
`try` (including `IndexError` from `choices[0]` on an empty choice list) is
caught and yields `None`. -/
def ask_openai (env : Env) (prompt : String) : Option String :=
  match env.llm prompt with
  | .raise _ => none
  | .noChoices => none
  | .content c => some (pyStrip c)

/-- The repository prompt of summarizers.py lines 141-153: the f-string
template (leading newline and trailing indentation included) followed by
`.strip()`. -/
def buildRepoPrompt (repo : RepoJson) (readme_text : String) : String :=
  pyStrip ("\nSummarize this GitHub repo:\n\nRepo Name: " ++ repo.name ++
    "\nOwner: " ++ repo.owner ++ "\nDescription: " ++ repo.description ++
    "\nStars: " ++ repo.stars ++ "\nForks: " ++ repo.forks ++
    "\nPrimary Language: " ++ repo.language ++ "\n\nREADME:\n" ++
    readme_text ++ "\n        ")

/-- The rebuilt prompt of summarizers.py lines 160-172 (same template with
twelve trailing spaces); only reachable after the truncation call. -/
def buildRepoPromptTrimmed (repo : RepoJson) (readme_text : String) : String :=
  pyStrip ("\nSummarize this GitHub repo:\n\nRepo Name: " ++ repo.name ++
    "\nOwner: " ++ repo.owner ++ "\nDescription: " ++ repo.description ++
    "\nStars: " ++ repo.stars ++ "\nForks: " ++ repo.forks ++
    "\nPrimary Language: " ++ repo.language ++ "\n\nREADME:\n" ++
    readme_text ++ "\n            ")

/-- Models the call `truncate_text(readme_text, allowable_tokens)` at
summarizers.py line 159. `truncate_text` (line 59) takes three required
positional parameters `(text, token_limit, encoder)`, so this two-argument
call raises `TypeError` before any truncation can happen. The
`allowable_tokens` argument is an `Int` because the Python expression
`MAX_TOKENS - num_tokens(prompt, encoder) + num_tokens(readme_text, encoder)`
can be negative. -/
def truncate_text_two_arg_call (_text : String) (_token_limit : Int) :
    Except PyErr String :=
  .error .typeError

/-- The `try` body of `summarize_any_repo` (summarizers.py lines 127-175).
The README payload in `Env.readmeFetch` models the base64-decoded
`content` field (`json().get("content", "")`, base64, UTF-8 with
`errors="ignore"`); a failed README response yields the empty text. -/
def summarize_any_repo_body (env : Env) (_repo_full_name : String) :
    Except PyErr String :=
  match env.repoFetch with
  | .raise e => .error e
  | .resp okRepo repo =>
    match env.readmeFetch with
    | .raise e => .error e
    | .resp okReadme readmePayload =>
      if !okRepo then .ok "Could not find repo."
      else
        let readme_text := if okReadme then readmePayload else ""
        let prompt := buildRepoPrompt repo readme_text
        let total_tokens := num_tokens prompt env.enc
        if total_tokens > MAX_TOKENS then do
          let allowable_tokens : Int :=
            (MAX_TOKENS : Int) - (num_tokens prompt env.enc : Int) +
              (num_tokens readme_text env.enc : Int)
          let readme_text2 ← truncate_text_two_arg_call readme_text allowable_tokens
          let prompt2 := buildRepoPromptTrimmed repo readme_text2
          .ok (pyOrOpt (ask_openai env prompt2) "AI summarization failed.")
        else
          .ok (pyOrOpt (ask_openai env prompt) "AI summarization failed.")

/-- Embeds `summarize_any_repo` (summarizers.py lines 110-179): the `except`
clause converts any exception from the body into `"Something went wrong."`. -/
def summarize_any_repo (env : Env) (repo_full_name : String) : String :=
  match summarize_any_repo_body env repo_full_name with
  | .ok s => s
  | .error _ => "Something went wrong."

/-- The issue text of summarizers.py line 204. -/
def latestIssueText (issue : IssueJson) : String :=
  "Issue #" ++ toString issue.number ++ ": " ++ issue.title ++ "\n" ++ issue.body

/-- The prompt of summarizers.py lines 205-209 (the f-string literally breaks
the word "Limit" across a line; transcribed verbatim, then `.strip()`). -/
def latestIssuePrompt (issue : IssueJson) : String :=
  pyStrip ("\n            Summarize this GitHub issue thread:\n" ++
    latestIssueText issue ++
    "\n\nL\n            imit the summary to no more than 1,000 characters.\n            Return plain text only. No formatting.\n        ")

/-- Embeds `summarize_latest_issue` (summarizers.py lines 182-215): the whole
body sits inside `try`, so a transport exception yields
`"Failed to summarize issue."`; a non-success response or an empty issue list
yields `"No issues found."`. -/
def summarize_latest_issue (env : Env) (_repo_full_name : String) : String :=
  match env.issuesFetch with
  | .raise _ => "Failed to summarize issue."
  | .resp ok issues =>
    if !ok || issues.isEmpty then "No issues found."
    else
      match issues with
      | [] => "No issues found."
      | issue :: _ =>
        pyOrOpt (ask_openai env (latestIssuePrompt issue)) "AI summarization failed."

/-- The thread text of summarizers.py lines 335-337: issue title and body,
then each comment body appended after a newline. -/
def threadText (issue_number : Nat) (issue : IssueJson) (comments : List String) :
    String :=
  comments.foldl (fun acc c => acc ++ "\n" ++ c)
    ("Issue #" ++ toString issue_number ++ ": " ++ issue.title ++ "\n" ++ issue.body)

/-- The prompt of summarizers.py line 339. -/
def threadPrompt (issue_number : Nat) (issue : IssueJson) (comments : List String) :
    String :=
  "Summarize this GitHub issue thread:\n" ++ threadText issue_number issue comments

/-- Embeds `summarize_issue_thread` (summarizers.py lines 313-340). The two
`httpx.get` calls are NOT wrapped in any `try`, so a transport exception
propagates to the caller (modelled by `.error`); a non-success response
yields `None`. -/
def summarize_issue_thread (env : Env) (_owner _repo : String)
    (issue_number : Nat) : Except PyErr (Option String) :=
  match env.issueFetch with
  | .raise e => .error e
  | .resp okIssue issue =>
    match env.commentsFetch with
    | .raise e => .error e
    | .resp okComments comments =>
      if !okIssue || !okComments then .ok none
      else .ok (ask_openai env (threadPrompt issue_number issue comments))

/-- Embeds `summarize_specific_issue` (summarizers.py lines 294-310):
`owner_repo.split("/")` unpacked into two names raises `ValueError` unless
the split has exactly two fields, which the local `try` converts into the
fixed format message; otherwise it delegates to `summarize_issue_thread`
(whose exceptions propagate). -/
def summarize_specific_issue (env : Env) (owner_repo : String)
    (issue_number : Nat) : Except PyErr (Option String) :=
  match pySplitChar '/' owner_repo with
  | [owner, repo] => summarize_issue_thread env owner repo issue_number
  | _ => .ok (some "Invalid format. Use <owner>/<repo>")

/-! ## Write-operation stubs (commands.py) -/

/-- Embeds `create_issue` (commands.py lines 33-47): write operations are
disabled, the stub always returns `False`. -/
def create_issue (_repo _title _body : String) : Bool := false

/-- Embeds `create_repo` (commands.py lines 50-63): always `False`. -/
def create_repo (_name : String) : Bool := false

/-! ## Repository search resolver (natural_language_router.py) -/

/-- The strong-match test of natural_language_router.py line 69:
bare name equals the query, or the query is a substring of the full name
(both sides lowercased). -/
def strongMatch (query_lower : String) (item : RepoItem) : Bool :=
  pyLower item.name == query_lower || pyContains (pyLower item.full_name) query_lower

/-- The soft-match test of natural_language_router.py line 75: the query is a
substring of the (possibly null, `or ""`) description or of the bare name. -/
def softMatch (query_lower : String) (item : RepoItem) : Bool :=
  pyContains (pyLower (item.description.getD "")) query_lower ||
    pyContains (pyLower item.name) query_lower

/-- The `try` body of `github_search_repo` (natural_language_router.py lines
61-81): on a successful response, scan for the first strong match, then the
first soft match, then fall back to the first candidate; `.ok none` models
falling through to the final `return None`. -/
def github_search_repo_body (env : Env) (query : String) :
    Except PyErr (Option String) :=
  match env.searchFetch with
  | .raise e => .error e
  | .resp ok items =>
    if ok then
      let query_lower := pyLower query
      match items.find? (strongMatch query_lower) with
      | some item => .ok (some item.full_name)
      | none =>
        match items.find? (softMatch query_lower) with
        | some item => .ok (some item.full_name)
        | none =>
          match items with
          | item :: _ => .ok (some item.full_name)
          | [] => .ok none
    else .ok none

/-- Embeds `github_search_repo` (natural_language_router.py lines 46-85): the
`except` clause swallows any exception, after which control reaches
`return None`. -/
def github_search_repo (env : Env) (query : String) : Option String :=
  match github_search_repo_body env query with
  | .ok r => r
  | .error _ => none

/-! ## Intent extractor (natural_language_router.py) -/

/-- The fence-stripping of natural_language_router.py lines 132-135: if the
raw response starts with three backticks, strip backticks from both ends and
whitespace, then drop a leading `json` tag. -/
def strip_fence (raw : String) : String :=
  if pyStartsWith "\x60\x60\x60" raw then
    let r := pyStrip (pyStripChar '\x60' raw)
    if pyStartsWith "json" r then pyStrip ⟨r.data.drop 4⟩ else r
  else raw

/-- Abridged model of the extraction prompt of natural_language_router.py
lines 98-117: the fixed few-shot preamble is elided (the LLM is an oracle
function of this text), keeping the user-input-bearing tail of the
template. -/
def intentPrompt (user_input : String) : String :=
  "Now extract the intent from: \"" ++ user_input ++ "\""

/-- The fallback intent returned by the `except` clause of
`parse_command_naturally` (natural_language_router.py lines 153-159). -/
def unknownIntent : List (String × PyVal) :=
  [("action", .str "unknown"), ("repo", .none), ("title", .none),
   ("body", .none), ("issue_number", .none)]

/-- The action set of natural_language_router.py lines 140-144 (`in` against
a set of string literals; a non-string value is never a member). -/
def actionNeedsRepo (v : PyVal) : Bool :=
  match v with
  | .str s => s == "summarize_repo" || s == "summarize_latest_issue" || s == "create_issue"
  | _ => false

/-- The `try` body of `parse_command_naturally` (natural_language_router.py
lines 119-150): obtain the raw content (`choices[0]` raises `IndexError` when
no choice exists), strip a code fence, `json.loads` it, and — only for dicts,
since `.get` on any other value raises `AttributeError` — guess the repo via
the search resolver when the action needs one and no repo was extracted. -/
def parse_command_naturally_body (env : Env) (user_input : String) :
    Except PyErr (List (String × PyVal)) :=
  match env.llm (intentPrompt user_input) with
  | .raise e => .error e
  | .noChoices => .error .indexError
  | .content c => do
    let raw := strip_fence (pyStrip c)
    let parsed ← env.jsonLoads raw
    match parsed with
    | .dict d =>
      if actionNeedsRepo (dictGet d "action") && !pyTruthy (dictGet d "repo") then
        match github_search_repo env user_input with
        | some guess => .ok (dictSet d "repo" (.str guess))
        | none => .ok d
      else .ok d
    | _ => .error .attrError

/-- Embeds `parse_command_naturally` (natural_language_router.py lines
88-159): any exception inside the body is converted into the fixed unknown
intent. -/
def parse_command_naturally (env : Env) (user_input : String) :
    List (String × PyVal) :=
  match parse_command_naturally_body env user_input with
  | .ok d => d
  | .error _ => unknownIntent

/-- Embeds `route_natural_command` (natural_language_router.py lines
162-199). The `create_issue` branch evaluates `repo.split("/")[-1]`, which
raises `AttributeError` when the extracted repo is a truthy non-string; no
other branch can raise. The `title`/`body` arguments only reach the disabled
`create_issue` stub and are rendered with `pyRender`. -/
def route_natural_command (env : Env) (user_text : String) :
    Except PyErr (Option String) :=
  let intent := parse_command_naturally env user_text
  let action := dictGet intent "action"
  let repo := dictGet intent "repo"
  if pvEqStr action "summarize_repo" && pyTruthy repo then
    .ok (some (summarize_any_repo env (pyRender repo)))
  else if pvEqStr action "summarize_latest_issue" && pyTruthy repo then
    .ok (some (summarize_latest_issue env (pyRender repo)))
  else if pvEqStr action "create_repo" && pyTruthy (dictGet intent "repo_name") then
    .ok (some (if create_repo (pyRender (dictGet intent "repo_name")) then
      "Created repo." else "Failed to create repo."))
  else if pvEqStr action "create_issue" && pyTruthy repo then
    match repo with
    | .str s =>
      let title := pyRender (if pyTruthy (dictGet intent "title") then
        dictGet intent "title" else .str "Issue")
      let body := pyRender (dictGet intent "body")
      .ok (some (if create_issue ((pySplitChar '/' s).getLastD "") title body then
        "Issue created." else "Failed to create issue."))
    | _ => .error .attrError
  else .ok none

/-! ## Dispatcher (main.py) -/

/-- The over-length rejection message of main.py line 75. -/
def tooLongMsg : String :=
  "The summary was too long to send. Try summarizing a smaller repo or issue."

/-- Embeds the `ask_openai` defined in main.py lines 42-81 (the variant that
enforces `ASK_OPENAI_MAX_LENGTH`). Note that nothing in the webhook reaches
this function: the webhook imports and calls the summarizers, whose own
`ask_openai` (summarizers.py) performs no length check. -/
def ask_openai_main (env : Env) (prompt : String) : String :=
  let prompt2 := prompt ++
    "\n\nLimit the summary to no more than 1,000 characters. Return plain text only. No formatting."
  match env.llm prompt2 with
  | .raise _ => "AI summarization failed. Please try again later."
  | .noChoices => "Sorry, no summary was generated."
  | .content c =>
    let result := pyStrip c
    if result.length > ASK_OPENAI_MAX_LENGTH then tooLongMsg else result

/-- The usage reply of main.py line 114. -/
def usageMsg : String := "Usage: create issue <repo> <title> -- <body>"

/-- The help reply of main.py line 117. -/
def helpMsg : String :=
  "Available commands:\n- summarize owner/repo\n- summarize owner/repo issue [#]"

/-- The default reply of main.py line 140. -/
def unrecognizedMsg : String :=
  "Unrecognized command. Text 'help' for available options."

/-- The create-issue extraction of main.py lines 108-110:
`pre, body = text.split(" -- ", 1)` (raising `ValueError`, hence `none`, when
the separator is absent) followed by the starred unpacking
`_, _, repo, *title_parts = pre.split()` (raising `ValueError`, hence `none`,
when `pre` has fewer than three fields) and `title = " ".join(title_parts)`. -/
def parseCreateIssue (text : String) : Option (String × String × String) :=
  match pySplitOnce " -- " text with
  | none => none
  | some (pre, body) =>
    match pySplit pre with
    | _ :: _ :: repo :: title_parts => some (repo, pyJoin " " title_parts, body)
    | _ => none

/-- The fallback tail of main.py lines 132-140: run the natural-language
router; a truthy result becomes the reply, otherwise the unrecognized-command
reply (also used when `route_natural_command` returns `None`). -/
def fallbackReply (env : Env) (text : String) : Except PyErr String := do
  let fallback ← route_natural_command env text
  match fallback with
  | some s => if s == "" then .ok unrecognizedMsg else .ok s
  | none => .ok unrecognizedMsg

/-- Embeds the webhook dispatcher `sms_webhook` (main.py lines 84-142),
returning the plain-text `response_message` handed to `twilio_reply` (the
TwiML XML envelope is transport, outside the core per the spec). `.error`
models an exception escaping the handler: the function body has no
`try`/`except` of its own, so exceptions from `summarize_specific_issue`
(via `summarize_issue_thread`) and from `route_natural_command`
propagate. -/
def sms_webhook (env : Env) (body0 : String) : Except PyErr String :=
  let text := pyStrip body0
  let parts := pySplit text
  if pyStartsWith "create repo" (pyLower text) && decide (parts.length ≥ 3) then
    let repo_name := parts.getD 2 ""
    .ok (if create_repo repo_name then "Created repo '" ++ repo_name ++ "'"
      else "Failed to create repo '" ++ repo_name ++ "'.")
  else if pyStartsWith "create issue" (pyLower text) && decide (parts.length ≥ 4) then
    match parseCreateIssue text with
    | some (repo, title, body) =>
      .ok (if create_issue repo title body then "Issue created in '" ++ repo ++ "'"
        else "Failed to create issue in '" ++ repo ++ "'.")
    | none => .ok usageMsg
  else if pyLower text == "help" then
    .ok helpMsg
  else if pyStartsWith "summarize" (pyLower text) && decide (parts.length ≥ 2) &&
      pyContains (parts.getD 1 "") "/" then
    let owner_repo := parts.getD 1 ""
    if decide (parts.length ≥ 4) && pyLower (parts.getD 2 "") == "issue" &&
        pyIsdigit (parts.getD 3 "") then do
      let summary ← summarize_specific_issue env owner_repo (pyInt (parts.getD 3 ""))
      .ok (pyOrOpt summary "Could not summarize issue.")
    else if decide (parts.length ≥ 3) && pyLower (parts.getD 2 "") == "issue" then
      .ok (pyOrStr (summarize_latest_issue env owner_repo)
        "Could not summarize the latest issue.")
    else
      .ok (pyOrStr (summarize_any_repo env owner_repo)
        "Could not summarize that repo.")
  else
    fallbackReply env text

/-! ## Theorems -/

set_option maxRecDepth 40000

/-- A concrete lossless encoder (one token per character), used to
instantiate the tokenizer-contract hypotheses. -/
def charEncoder : Encoding where
  encode s := s.data.map Char.toNat
  decode l := ⟨l.map Char.ofNat⟩

theorem charEncoder_roundtrip (s : String) :
    charEncoder.decode (charEncoder.encode s) = s := by
  simp only [charEncoder, List.map_map]
  have : (fun c => Char.ofNat (Char.toNat c)) = (id : Char → Char) := by
    funext c; simp [Char.ofNat_toNat]
  rw [Function.comp_def, this, List.map_id]

theorem charEncoder_canonical (ts : List Nat) :
    (charEncoder.encode (charEncoder.decode ts)).length ≤ ts.length := by
  simp [charEncoder]

/-- C5: for every text `t` and limit `L`, truncation is the identity when the
text is within budget, and its result always fits the budget. The properties
hold for any encoder satisfying the tokenizer contract the spec relies on:
decoding inverts encoding (losslessness) and re-encoding a decoded token list
yields no more tokens than the list had (the `tiktoken` encoder is external
to the repository, so the contract enters as hypotheses). -/
theorem C5_truncate_budget (enc : Encoding)
    (hRound : ∀ s, enc.decode (enc.encode s) = s)
    (hCanon : ∀ ts : List Nat, (enc.encode (enc.decode ts)).length ≤ ts.length)
    (t : String) (L : Nat) :
    (num_tokens t enc ≤ L → truncate_text t L enc = t) ∧
      num_tokens (truncate_text t L enc) enc ≤ L := by
  constructor
  · intro h
    unfold truncate_text
    rw [List.take_of_length_le h]
    exact hRound t
  · unfold num_tokens truncate_text
    refine le_trans (hCanon _) ?_
    simp [List.length_take_le]

/-- Witness for C5 at a concrete text and limit, using the concrete
character-level encoder. -/
theorem C5_truncate_budget_witness :
    (num_tokens "git sms" charEncoder ≤ 9 →
      truncate_text "git sms" 9 charEncoder = "git sms") ∧
      num_tokens (truncate_text "git sms" 9 charEncoder) charEncoder ≤ 9 :=
  C5_truncate_budget charEncoder charEncoder_roundtrip charEncoder_canonical
    "git sms" 9

/-! ### Generic helper lemmas -/

theorem dropWhile_all_false {p : Char → Bool} :
    ∀ l : List Char, (∀ c ∈ l, p c = false) → l.dropWhile p = l
  | [], _ => rfl
  | c :: cs, h => by
    rw [List.dropWhile_cons, h c (by simp)]
    simp

theorem lstrip_all_false {p : Char → Bool} {l : List Char}
    (h : ∀ c ∈ l, p c = false) : lstrip p l = l := by
  unfold lstrip
  rw [dropWhile_all_false _ h,
    dropWhile_all_false _ (fun c hc => h c (List.mem_reverse.mp hc)),
    List.reverse_reverse]

theorem pyStrip_eq_self_of_no_ws {s : String} (h : ∀ c ∈ s.data, pws c = false) :
    pyStrip s = s := by
  unfold pyStrip
  rw [lstrip_all_false h]

theorem find?_first {α} (p : α → Bool) (pre post : List α) (x : α)
    (hpre : ∀ y ∈ pre, p y = false) (hx : p x = true) :
    (pre ++ x :: post).find? p = some x := by
  induction pre with
  | nil => simpa using List.find?_cons_of_pos post hx
  | cons a rest ih =>
    have ha : p a = false := hpre a (by simp)
    have ih2 := ih (fun y hy => hpre y (by simp [hy]))
    rw [List.cons_append, List.find?_cons_of_neg _ (by simp [ha]), ih2]

/-! ### C6: search resolver prefers the first strong match -/

/-- C6: for every candidate list returned by the search collaborator and
every query, when some candidate is a strong match (bare name equals the
query, or the query is a substring of the full name, case-insensitively), the
resolver returns the full name of the first such candidate in collaborator
ranking order — soft and weak matching are never consulted. -/
theorem C6_strong_match_first (env : Env) (query : String)
    (pre post : List RepoItem) (item : RepoItem)
    (hfetch : env.searchFetch = .resp true (pre ++ item :: post))
    (hpre : ∀ x ∈ pre, strongMatch (pyLower query) x = false)
    (hit : strongMatch (pyLower query) item = true) :
    github_search_repo env query = some item.full_name := by
  unfold github_search_repo github_search_repo_body
  rw [hfetch]
  simp only [if_true]
  rw [find?_first (strongMatch (pyLower query)) pre post item hpre hit]

/-- Witness for C6: the spec's worked example — candidates
`[{name: foo, full_name: bar/foo}, {name: zzz, full_name: zzz/zzz}]` and
query `foo` resolve to `bar/foo`. -/
theorem C6_strong_match_first_witness :
    github_search_repo
      { enc := charEncoder, repoFetch := .resp true ⟨"", "", "", "", "", ""⟩,
        readmeFetch := .resp true "", issuesFetch := .resp true [],
        issueFetch := .resp true ⟨1, "", ""⟩, commentsFetch := .resp true [],
        searchFetch := .resp true
          [⟨"foo", "bar/foo", none⟩, ⟨"zzz", "zzz/zzz", none⟩],
        llm := fun _ => .noChoices, jsonLoads := fun _ => .error .jsonError }
      "foo" = some "bar/foo" :=
  C6_strong_match_first _ "foo" []
    [⟨"zzz", "zzz/zzz", none⟩] ⟨"foo", "bar/foo", none⟩
    rfl (by intro x hx; cases hx) (by decide)

/-! ### C7: search resolver is total and treats failures as no match -/

/-- C7: the repository search resolver never lets an exception escape — a
transport failure is swallowed (any exception from the request body is
converted to `None` by the `except` clause), and an empty candidate list
yields `None`. -/
theorem C7_resolver_no_match (env : Env) (query : String) :
    (∀ e, env.searchFetch = .raise e → github_search_repo env query = none) ∧
    (∀ ok, env.searchFetch = .resp ok [] → github_search_repo env query = none) ∧
    (∀ e, github_search_repo_body env query = .error e →
      github_search_repo env query = none) := by
  refine ⟨?_, ?_, ?_⟩
  · intro e h
    unfold github_search_repo github_search_repo_body
    rw [h]
  · intro ok h
    unfold github_search_repo github_search_repo_body
    rw [h]
    cases ok <;> simp
  · intro e h
    unfold github_search_repo
    rw [h]

/-- Witness for C7 at an empty result list and at a raising transport. -/
theorem C7_resolver_no_match_witness :
    github_search_repo
      { enc := charEncoder, repoFetch := .resp true ⟨"", "", "", "", "", ""⟩,
        readmeFetch := .resp true "", issuesFetch := .resp true [],
        issueFetch := .resp true ⟨1, "", ""⟩, commentsFetch := .resp true [],
        searchFetch := .resp true [], llm := fun _ => .noChoices,
        jsonLoads := fun _ => .error .jsonError } "nimbus" = none ∧
    github_search_repo
      { enc := charEncoder, repoFetch := .resp true ⟨"", "", "", "", "", ""⟩,
        readmeFetch := .resp true "", issuesFetch := .resp true [],
        issueFetch := .resp true ⟨1, "", ""⟩, commentsFetch := .resp true [],
        searchFetch := .raise .netError, llm := fun _ => .noChoices,
        jsonLoads := fun _ => .error .jsonError } "nimbus" = none :=
  ⟨(C7_resolver_no_match _ "nimbus").2.1 true rfl,
   (C7_resolver_no_match _ "nimbus").1 .netError rfl⟩

/-! ### C8: intent extractor never propagates and strips fences -/

/-- C8: the intent extractor never lets an exception reach its caller — any
failure inside the extraction body (in particular a JSON parse failure, which
is applied to the response only after its code fence has been stripped)
yields the fixed `{action: unknown}` intent with every other field null. -/
theorem C8_extractor_total (env : Env) (input : String) :
    (∀ e, parse_command_naturally_body env input = .error e →
      parse_command_naturally env input = unknownIntent) ∧
    (∀ e, env.llm (intentPrompt input) = .raise e →
      parse_command_naturally env input = unknownIntent) ∧
    (∀ c e, env.llm (intentPrompt input) = .content c →
      env.jsonLoads (strip_fence (pyStrip c)) = .error e →
      parse_command_naturally env input = unknownIntent) := by
  refine ⟨?_, ?_, ?_⟩
  · intro e h
    unfold parse_command_naturally
    rw [h]
  · intro e h
    unfold parse_command_naturally parse_command_naturally_body
    rw [h]
  · intro c e hc hj
    unfold parse_command_naturally parse_command_naturally_body
    rw [hc]
    simp only [bind, Except.bind, hj]

/-- Witness for C8: a fenced, `json`-tagged, unparsable LLM response together
with a failing `json.loads` yields exactly the unknown intent. -/
theorem C8_extractor_total_witness :
    parse_command_naturally
      { enc := charEncoder, repoFetch := .resp true ⟨"", "", "", "", "", ""⟩,
        readmeFetch := .resp true "", issuesFetch := .resp true [],
        issueFetch := .resp true ⟨1, "", ""⟩, commentsFetch := .resp true [],
        searchFetch := .resp true [],
        llm := fun _ => .content "\x60\x60\x60json\nnot json at all\n\x60\x60\x60",
        jsonLoads := fun _ => .error .jsonError }
      "what is nimbus?" = unknownIntent :=
  (C8_extractor_total _ "what is nimbus?").2.2 "\x60\x60\x60json\nnot json at all\n\x60\x60\x60"
    .jsonError rfl rfl

/-! ### Shared concrete collaborator outcomes for evaluation -/

/-- Concrete repository metadata used by the concrete environments. -/
def oracleRepo : RepoJson :=
  ⟨"Hello-World", "octocat", "demo", "1", "2", "Python"⟩

/-- A fully successful concrete environment: all fetches succeed with small
payloads, the LLM returns a short summary, `json.loads` fails. -/
def oracleEnv : Env where
  enc := charEncoder
  repoFetch := .resp true oracleRepo
  readmeFetch := .resp true "readme"
  issuesFetch := .resp true [⟨7, "title", "body"⟩]
  issueFetch := .resp true ⟨5, "title", "body"⟩
  commentsFetch := .resp true ["comment"]
  searchFetch := .resp true []
  llm := fun _ => .content "summary"
  jsonLoads := fun _ => .error .jsonError

/-- For any environment, the dispatcher routes `summarize octocat/Hello-World`
to the repository summarizer (evaluation of the branch guards on the fixed
input text). -/
theorem dispatch_repo_path (env : Env) :
    sms_webhook env "summarize octocat/Hello-World" =
      .ok (pyOrStr (summarize_any_repo env "octocat/Hello-World")
        "Could not summarize that repo.") := rfl

/-- Over the concrete fetch outcomes of `oracleEnv` (any LLM), the repository
summarizer reduces to the `or`-coercion of the LLM answer on the assembled
prompt: the concrete prompt is far below `MAX_TOKENS`, so no trimming
happens. -/
theorem summarize_any_repo_oracle (llmf : String → LLMResult) :
    summarize_any_repo { oracleEnv with llm := llmf } "octocat/Hello-World" =
      pyOrOpt (ask_openai { oracleEnv with llm := llmf }
        (buildRepoPrompt oracleRepo "readme")) "AI summarization failed." := rfl

/-! ### C1: the 1000-character output cap is not enforced by the pipeline -/

/-- A 1001-character LLM response. -/
def longSummary : String := ⟨List.replicate 1001 'a'⟩

/-- Environment in which every fetch succeeds and the LLM answers with the
1001-character response. -/
def envOverlong : Env := { oracleEnv with llm := fun _ => .content longSummary }

theorem longSummary_no_ws : ∀ c ∈ longSummary.data, pws c = false := by
  intro c hc
  have : c = 'a' := List.eq_of_mem_replicate hc
  subst this
  rfl

theorem longSummary_length : longSummary.length = 1001 := by
  show (List.replicate 1001 'a').length = 1001
  exact List.length_replicate 1001 'a'

theorem longSummary_ne_empty : (longSummary == "") = false := by
  apply beq_eq_false_iff_ne.mpr
  intro h
  have := congrArg String.length h
  rw [longSummary_length] at this
  simp [String.length] at this

/-- C1 fails on the code: for a repository-summary request whose raw LLM
response has 1001 characters, the reply the dispatcher returns to the user IS
that 1001-character response — the pipeline's `ask_openai`
(summarizers.py) performs no length check, so the reply exceeds
`ASK_OPENAI_MAX_LENGTH` and is not the fixed too-long message. The unused
`ask_openai` of main.py (last conjunct) is the variant that would have
enforced the cap exactly as the claim states. -/
theorem C1_overlong_reply :
    sms_webhook envOverlong "summarize octocat/Hello-World" = .ok longSummary ∧
    longSummary.length = 1001 ∧
    ¬ (longSummary.length ≤ ASK_OPENAI_MAX_LENGTH) ∧
    longSummary ≠ tooLongMsg ∧
    ask_openai_main envOverlong "Summarize this GitHub repo:" = tooLongMsg := by
  have hstrip : pyStrip longSummary = longSummary :=
    pyStrip_eq_self_of_no_ws longSummary_no_ws
  refine ⟨?_, longSummary_length, ?_, ?_, ?_⟩
  · rw [dispatch_repo_path]
    unfold envOverlong
    rw [summarize_any_repo_oracle]
    have hask : ask_openai { oracleEnv with llm := fun _ => .content longSummary }
        (buildRepoPrompt oracleRepo "readme") = some (pyStrip longSummary) := rfl
    rw [hask, hstrip]
    simp [pyOrOpt, pyOrStr, longSummary_ne_empty]
  · rw [longSummary_length]
    simp [ASK_OPENAI_MAX_LENGTH]
  · intro h
    have := congrArg String.length h
    rw [longSummary_length] at this
    simp [tooLongMsg, String.length] at this
  · have h1 : ask_openai_main envOverlong "Summarize this GitHub repo:" =
        if (pyStrip longSummary).length > ASK_OPENAI_MAX_LENGTH then tooLongMsg
        else pyStrip longSummary := rfl
    rw [h1, hstrip, longSummary_length]
    rw [if_pos (by decide)]

/-! ### C2: over-budget prompts crash the trimming step -/

/-- C2 fails on the code: whenever the assembled repository prompt exceeds
`MAX_TOKENS`, the trimming branch calls `truncate_text` with two arguments
(summarizers.py line 159), which raises `TypeError`; the enclosing `except`
converts it to `"Something went wrong."`. The README is never truncated, no
prompt is rebuilt, and the LLM is never called. -/
theorem C2_trim_type_error (env : Env) (repo_full_name : String)
    (repo : RepoJson) (okReadme : Bool) (readmePayload : String)
    (hrepo : env.repoFetch = .resp true repo)
    (hreadme : env.readmeFetch = .resp okReadme readmePayload)
    (hover : num_tokens
      (buildRepoPrompt repo (if okReadme then readmePayload else "")) env.enc
      > MAX_TOKENS) :
    summarize_any_repo env repo_full_name = "Something went wrong." := by
  unfold summarize_any_repo summarize_any_repo_body
  rw [hrepo, hreadme]
  dsimp only
  rw [if_pos hover]
  rfl

/-- An encoder under which every text counts 20000 tokens, putting any
prompt over the 16000-token budget. -/
def bigEncoder : Encoding where
  encode _ := List.replicate 20000 0
  decode _ := ""

/-- Environment triggering the trimming branch. -/
def envBigPrompt : Env := { oracleEnv with enc := bigEncoder }

/-- Witness for C2: with successful fetches and an over-budget prompt the
repository summary is the exception fallback, not a trimmed summary. -/
theorem C2_trim_type_error_witness :
    summarize_any_repo envBigPrompt "octocat/Hello-World" =
      "Something went wrong." :=
  C2_trim_type_error envBigPrompt "octocat/Hello-World" oracleRepo true "readme"
    rfl rfl
    (by
      have h : num_tokens
          (buildRepoPrompt oracleRepo (if true then "readme" else ""))
          envBigPrompt.enc = 20000 := by
        show (List.replicate 20000 (0 : Nat)).length = 20000
        exact List.length_replicate 20000 0
      rw [h]
      decide)

/-! ### C10: an LLM call yielding no text never produces an empty reply -/

/-- C10: whenever the LLM call of a summarization request yields no text
(`ask_openai` returns `None` — exception or no choices — or the stripped
empty string), the repository and latest-issue operations return the fixed
`"AI summarization failed."` and the specific-issue path, after the webhook's
`or`-coercion, returns `"Could not summarize issue."`; both fixed strings are
non-empty, so the user-visible reply is never empty. -/
theorem C10_no_empty_reply (env : Env) :
    (∀ repo_full_name repo okReadme readmePayload,
      env.repoFetch = .resp true repo →
      env.readmeFetch = .resp okReadme readmePayload →
      num_tokens (buildRepoPrompt repo (if okReadme then readmePayload else ""))
        env.enc ≤ MAX_TOKENS →
      (ask_openai env
          (buildRepoPrompt repo (if okReadme then readmePayload else "")) = none ∨
        ask_openai env
          (buildRepoPrompt repo (if okReadme then readmePayload else "")) = some "") →
      summarize_any_repo env repo_full_name = "AI summarization failed.") ∧
    (∀ repo_full_name issue rest,
      env.issuesFetch = .resp true (issue :: rest) →
      (ask_openai env (latestIssuePrompt issue) = none ∨
        ask_openai env (latestIssuePrompt issue) = some "") →
      summarize_latest_issue env repo_full_name = "AI summarization failed.") ∧
    (∀ owner repo n issue comments,
      env.issueFetch = .resp true issue →
      env.commentsFetch = .resp true comments →
      (ask_openai env (threadPrompt n issue comments) = none ∨
        ask_openai env (threadPrompt n issue comments) = some "") →
      (summarize_issue_thread env owner repo n).map
        (fun o => pyOrOpt o "Could not summarize issue.") =
        Except.ok "Could not summarize issue.") ∧
    ("AI summarization failed." ≠ "" ∧ "Could not summarize issue." ≠ "") := by
  refine ⟨?_, ?_, ?_, by decide, by decide⟩
  · intro repo_full_name repo okReadme readmePayload hrepo hreadme hbudget hask
    unfold summarize_any_repo summarize_any_repo_body
    rw [hrepo, hreadme]
    dsimp only
    rw [if_neg (not_lt.mpr hbudget)]
    rcases hask with h | h <;> rw [h] <;> rfl
  · intro repo_full_name issue rest hissues hask
    unfold summarize_latest_issue
    rw [hissues]
    dsimp only
    rcases hask with h | h <;> rw [h] <;> rfl
  · intro owner repo n issue comments hissue hcomments hask
    unfold summarize_issue_thread
    rw [hissue, hcomments]
    dsimp only
    rcases hask with h | h <;> rw [h] <;> rfl

/-- Environment in which the LLM client raises on every call. -/
def envLLMDown : Env := { oracleEnv with llm := fun _ => .raise .netError }

/-- Witness for C10 with a raising LLM on all three request kinds. -/
theorem C10_no_empty_reply_witness :
    summarize_any_repo envLLMDown "octocat/Hello-World" =
      "AI summarization failed." ∧
    summarize_latest_issue envLLMDown "octocat/Hello-World" =
      "AI summarization failed." ∧
    (summarize_issue_thread envLLMDown "octocat" "Hello-World" 5).map
      (fun o => pyOrOpt o "Could not summarize issue.") =
      Except.ok "Could not summarize issue." :=
  ⟨(C10_no_empty_reply envLLMDown).1 "octocat/Hello-World" oracleRepo true
      "readme" rfl rfl (by decide) (Or.inl rfl),
   (C10_no_empty_reply envLLMDown).2.1 "octocat/Hello-World" ⟨7, "title", "body"⟩
      [] rfl (Or.inl rfl),
   (C10_no_empty_reply envLLMDown).2.2.1 "octocat" "Hello-World" 5
      ⟨5, "title", "body"⟩ ["comment"] rfl rfl (Or.inl rfl)⟩

/-! ### C3: dispatcher totality -/

/-- Environment whose specific-issue fetch raises a transport exception. -/
def envIssueDown : Env := { oracleEnv with issueFetch := .raise .netError }

/-- Counterexample to C3 as stated: for the request
`summarize a/b issue 5`, a transport exception inside
`summarize_issue_thread` (whose `httpx.get` calls sit in no `try`) propagates
through `summarize_specific_issue` and out of the dispatcher — the webhook
does not terminate with a string reply. -/
theorem C3_dispatcher_raises :
    sms_webhook envIssueDown "summarize a/b issue 5" = .error .netError := rfl

/-- A value whose `repo` field (when the value is a dict) is either a string
or falsy; `route_natural_command` evaluates `repo.split("/")` only on truthy
repos, so this is exactly the shape that cannot raise `AttributeError`
there. -/
def repoFieldOk (v : PyVal) : Bool :=
  match v with
  | .dict d =>
    (match dictGet d "repo" with
      | .str _ => true
      | r => !pyTruthy r)
  | _ => true

theorem dictGet_cons_ne {k1 k : String} (v1 : PyVal) (l : List (String × PyVal))
    (h : (k1 == k) = false) : dictGet ((k1, v1) :: l) k = dictGet l k := by
  unfold dictGet
  rw [List.find?_cons_of_neg _ (by simp [h])]

theorem dictGet_dictSet (d : List (String × PyVal)) (k : String) (v : PyVal) :
    dictGet (dictSet d k v) k = v := by
  induction d with
  | nil => simp [dictGet, dictSet]
  | cons kv rest ih =>
    obtain ⟨k1, v1⟩ := kv
    unfold dictSet
    by_cases h : k1 = k
    · subst h
      simp [dictGet]
    · have hb : (k1 == k) = false := beq_eq_false_iff_ne.mpr h
      rw [hb]
      simp only [Bool.false_eq_true, if_false]
      rw [dictGet_cons_ne v1 _ hb]
      exact ih

/-- Every intent leaving the extractor keeps a string-or-falsy `repo` field,
provided `json.loads` only ever produces such values: the unknown intent has
`repo = None`, and the resolver only ever writes a string into `repo`. -/
theorem parse_repo_ok (env : Env)
    (hjson : ∀ s v, env.jsonLoads s = .ok v → repoFieldOk v = true)
    (input : String) :
    repoFieldOk (.dict (parse_command_naturally env input)) = true := by
  unfold parse_command_naturally parse_command_naturally_body
  cases hllm : env.llm (intentPrompt input) with
  | raise e => rfl
  | noChoices => rfl
  | content c =>
    cases hj : env.jsonLoads (strip_fence (pyStrip c)) with
    | error e => simp only [bind, Except.bind, hj]; rfl
    | ok v =>
      simp only [bind, Except.bind, hj]
      have hv := hjson _ v hj
      cases v with
      | dict d =>
        dsimp only
        by_cases hcond :
          (actionNeedsRepo (dictGet d "action") && !pyTruthy (dictGet d "repo")) = true
        · rw [if_pos hcond]
          cases hg : github_search_repo env input with
          | some g => simp [repoFieldOk, dictGet_dictSet]
          | none => simpa [repoFieldOk] using hv
        · rw [if_neg hcond]
          simpa [repoFieldOk] using hv
      | none => rfl
      | bool b => rfl
      | int n => rfl
      | str s => rfl
      | list xs => rfl

/-- The natural-language router returns (never raises) whenever the
extractor's intents have string-or-falsy `repo` fields. -/
theorem route_total (env : Env)
    (hjson : ∀ s v, env.jsonLoads s = .ok v → repoFieldOk v = true)
    (text : String) :
    ∃ r, route_natural_command env text = Except.ok r := by
  have hok := parse_repo_ok env hjson text
  unfold repoFieldOk at hok
  dsimp only at hok
  unfold route_natural_command
  dsimp only
  split
  · exact ⟨_, rfl⟩
  split
  · exact ⟨_, rfl⟩
  split
  · exact ⟨_, rfl⟩
  split
  · rename_i h4
    simp only [Bool.and_eq_true] at h4
    cases hr : dictGet (parse_command_naturally env text) "repo" with
    | str s => exact ⟨_, rfl⟩
    | none =>
      rw [hr] at h4
      simp [pyTruthy] at h4
    | bool b =>
      rw [hr] at h4 hok
      simp only [pyTruthy, Bool.not_eq_true'] at hok
      exact absurd h4.2 (by simp [pyTruthy, hok])
    | int n =>
      rw [hr] at h4 hok
      simp only [pyTruthy, Bool.not_eq_true'] at hok
      exact absurd h4.2 (by simp [pyTruthy, hok])
    | list xs =>
      rw [hr] at h4 hok
      simp only [pyTruthy, Bool.not_eq_true'] at hok
      exact absurd h4.2 (by simp [pyTruthy, hok])
    | dict d2 =>
      rw [hr] at h4 hok
      simp only [pyTruthy, Bool.not_eq_true'] at hok
      exact absurd h4.2 (by simp [pyTruthy, hok])
  · exact ⟨_, rfl⟩

/-- The specific-issue summarizer returns (never raises) when neither of its
two fetches raises. -/
theorem specific_total (env : Env)
    (hi : ∀ e, env.issueFetch ≠ Fetch.raise e)
    (hc : ∀ e, env.commentsFetch ≠ Fetch.raise e)
    (owner_repo : String) (n : Nat) :
    ∃ o, summarize_specific_issue env owner_repo n = Except.ok o := by
  unfold summarize_specific_issue
  split
  · unfold summarize_issue_thread
    cases hIF : env.issueFetch with
    | raise e => exact absurd hIF (hi e)
    | resp ok issue =>
      cases hCF : env.commentsFetch with
      | raise e => exact absurd hCF (hc e)
      | resp ok2 comments =>
        dsimp only
        split
        · exact ⟨_, rfl⟩
        · exact ⟨_, rfl⟩
  · exact ⟨_, rfl⟩

/-- C3 amended: the claim fails as stated (see the counterexample: a
transport exception in the specific-issue path escapes the dispatcher). What
holds is totality everywhere else: for every inbound text, the dispatcher
terminates with a plain-text string reply provided (a) the two
specific-issue-thread fetches do not raise — they are the only collaborator
calls with no surrounding `try` — and (b) `json.loads` only yields intents
whose `repo` field is a string or falsy (otherwise `repo.split("/")` in the
router's create-issue branch raises `AttributeError`, which also escapes).
All remaining collaborator failures are pre-converted to fixed strings. -/
theorem C3_dispatcher_total (env : Env) (text : String)
    (hi : ∀ e, env.issueFetch ≠ Fetch.raise e)
    (hc : ∀ e, env.commentsFetch ≠ Fetch.raise e)
    (hjson : ∀ s v, env.jsonLoads s = .ok v → repoFieldOk v = true) :
    ∃ r, sms_webhook env text = Except.ok r := by
  unfold sms_webhook
  dsimp only
  split
  · exact ⟨_, rfl⟩
  split
  · split
    · exact ⟨_, rfl⟩
    · exact ⟨_, rfl⟩
  split
  · exact ⟨_, rfl⟩
  split
  · split
    · obtain ⟨o, ho⟩ := specific_total env hi hc
        ((pySplit (pyStrip text)).getD 1 "")
        (pyInt ((pySplit (pyStrip text)).getD 3 ""))
      rw [ho]
      exact ⟨_, rfl⟩
    split
    · exact ⟨_, rfl⟩
    · exact ⟨_, rfl⟩
  · unfold fallbackReply
    obtain ⟨r, hr⟩ := route_total env hjson (pyStrip text)
    rw [hr]
    simp only [bind, Except.bind]
    split
    · split
      · exact ⟨_, rfl⟩
      · exact ⟨_, rfl⟩
    · exact ⟨_, rfl⟩

/-- Witness for the amended C3 at a concrete safe environment and input. -/
theorem C3_dispatcher_total_witness :
    ∃ r, sms_webhook oracleEnv "tell me about nimbus" = Except.ok r :=
  C3_dispatcher_total oracleEnv "tell me about nimbus"
    (fun _ h => Fetch.noConfusion h)
    (fun _ h => Fetch.noConfusion h)
    (fun _ _ h => Except.noConfusion h)

/-! ### String-composition lemmas for whole-input dispatcher theorems -/

theorem data_append (a b : String) : (a ++ b).data = a.data ++ b.data := rfl

theorem pyLower_data (s : String) : (pyLower s).data = s.data.map Char.toLower := rfl

theorem lpre_append (p : List Char) :
    ∀ (a r : List Char), lpre p a = true → lpre p (a ++ r) = true := by
  induction p with
  | nil => intro a r _; rfl
  | cons x xs ih =>
    intro a r h
    cases a with
    | nil => exact absurd h (by simp [lpre])
    | cons b bs =>
      rw [List.cons_append]
      unfold lpre at h ⊢
      simp only [Bool.and_eq_true] at h ⊢
      exact ⟨h.1, ih bs r h.2⟩

theorem lsplitWs_token_space :
    ∀ (tok rest : List Char), tok ≠ [] → (∀ c ∈ tok, pws c = false) →
      lsplitWs (tok ++ ' ' :: rest) = tok :: lsplitWs rest
  | [], _, hne, _ => absurd rfl hne
  | [c], rest, _, hnw => by
    have hc : pws c = false := hnw c (by simp)
    have he : lsplitWs (c :: ' ' :: rest) =
        if pws c then lsplitWs (' ' :: rest)
        else if pws ' ' then [c] :: lsplitWs rest
        else match lsplitWs (' ' :: rest) with
          | [] => [[c]]
          | tk :: ts => (c :: tk) :: ts := rfl
    show lsplitWs (c :: ' ' :: rest) = [c] :: lsplitWs rest
    rw [he, hc]
    simp only [Bool.false_eq_true, if_false]
    rfl
  | c :: c2 :: tok2, rest, _, hnw => by
    have hc : pws c = false := hnw c (by simp)
    have hc2 : pws c2 = false := hnw c2 (by simp)
    have ihx := lsplitWs_token_space (c2 :: tok2) rest (by simp)
      (fun x hx => hnw x (by simp at hx; rcases hx with h | h <;> simp [h]))
    show lsplitWs (c :: c2 :: (tok2 ++ ' ' :: rest)) =
      (c :: c2 :: tok2) :: lsplitWs rest
    have he : lsplitWs (c :: c2 :: (tok2 ++ ' ' :: rest)) =
        if pws c then lsplitWs (c2 :: (tok2 ++ ' ' :: rest))
        else if pws c2 then [c] :: lsplitWs (tok2 ++ ' ' :: rest)
        else match lsplitWs (c2 :: (tok2 ++ ' ' :: rest)) with
          | [] => [[c]]
          | tk :: ts => (c :: tk) :: ts := rfl
    rw [he, hc, hc2]
    simp only [Bool.false_eq_true, if_false]
    have : lsplitWs (c2 :: (tok2 ++ ' ' :: rest)) =
        (c2 :: tok2) :: lsplitWs rest := by
      simpa using ihx
    rw [this]

theorem lsplitWs_single :
    ∀ (tok : List Char), tok ≠ [] → (∀ c ∈ tok, pws c = false) →
      lsplitWs tok = [tok]
  | [], hne, _ => absurd rfl hne
  | [c], _, hnw => by
    have hc : pws c = false := hnw c (by simp)
    have he : lsplitWs [c] = if pws c then lsplitWs [] else [[c]] := rfl
    rw [he, hc]
    simp
  | c :: c2 :: tok2, _, hnw => by
    have hc : pws c = false := hnw c (by simp)
    have hc2 : pws c2 = false := hnw c2 (by simp)
    have ihx := lsplitWs_single (c2 :: tok2) (by simp)
      (fun x hx => hnw x (by simp at hx; rcases hx with h | h <;> simp [h]))
    have he : lsplitWs (c :: c2 :: tok2) =
        if pws c then lsplitWs (c2 :: tok2)
        else if pws c2 then [c] :: lsplitWs tok2
        else match lsplitWs (c2 :: tok2) with
          | [] => [[c]]
          | tk :: ts => (c :: tk) :: ts := rfl
    rw [he, hc, hc2]
    simp only [Bool.false_eq_true, if_false]
    rw [ihx]

theorem dropWhile_eq_self_head (p : Char → Bool) (l : List Char)
    (h : ∀ c, l.head? = some c → p c = false) : l.dropWhile p = l := by
  cases l with
  | nil => rfl
  | cons c cs =>
    rw [List.dropWhile_cons, h c rfl]
    simp

theorem pyStrip_eq_self_of_ends {s : String}
    (hh : ∀ c, s.data.head? = some c → pws c = false)
    (hl : ∀ c, s.data.getLast? = some c → pws c = false) : pyStrip s = s := by
  unfold pyStrip lstrip
  rw [dropWhile_eq_self_head pws s.data hh]
  rw [dropWhile_eq_self_head pws s.data.reverse
    (fun c hc => hl c (by rwa [List.head?_reverse] at hc))]
  rw [List.reverse_reverse]

/-- Splitting `"summarize " ++ repo ++ " issue " ++ t` into its four
whitespace-separated fields. -/
theorem pySplit_sum_issue_t (repo t : String)
    (hrne : repo.data ≠ []) (hrnw : ∀ c ∈ repo.data, pws c = false)
    (htne : t.data ≠ []) (htnw : ∀ c ∈ t.data, pws c = false) :
    pySplit ("summarize " ++ repo ++ " issue " ++ t) =
      ["summarize", repo, "issue", t] := by
  have hdata : ("summarize " ++ repo ++ " issue " ++ t).data =
      "summarize".data ++ ' ' :: (repo.data ++ ' ' ::
        ("issue".data ++ ' ' :: t.data)) := by
    simp only [data_append]
    simp [List.append_assoc]
  unfold pySplit
  rw [hdata]
  rw [lsplitWs_token_space "summarize".data _ (by decide) (by decide)]
  rw [lsplitWs_token_space repo.data _ hrne hrnw]
  rw [lsplitWs_token_space "issue".data _ (by decide) (by decide)]
  rw [lsplitWs_single t.data htne htnw]
  rfl

theorem pySplit_sum_issue (repo : String)
    (hrne : repo.data ≠ []) (hrnw : ∀ c ∈ repo.data, pws c = false) :
    pySplit ("summarize " ++ repo ++ " issue") = ["summarize", repo, "issue"] := by
  have hdata : ("summarize " ++ repo ++ " issue").data =
      "summarize".data ++ ' ' :: (repo.data ++ ' ' :: "issue".data) := by
    simp only [data_append]
    simp [List.append_assoc]
  unfold pySplit
  rw [hdata]
  rw [lsplitWs_token_space "summarize".data _ (by decide) (by decide)]
  rw [lsplitWs_token_space repo.data _ hrne hrnw]
  rw [lsplitWs_single "issue".data (by decide) (by decide)]
  rfl

/-- Any text whose lowering starts with `summarize ` fails the create-repo,
create-issue and help guards and passes the summarize guard. -/
theorem summarize_guards (text : String) (Z : List Char)
    (hZ : (pyLower text).data = "summarize ".data ++ Z) :
    pyStartsWith "create repo" (pyLower text) = false ∧
    pyStartsWith "create issue" (pyLower text) = false ∧
    (pyLower text == "help") = false ∧
    pyStartsWith "summarize" (pyLower text) = true := by
  refine ⟨?_, ?_, ?_, ?_⟩
  · unfold pyStartsWith
    rw [hZ]
    rfl
  · unfold pyStartsWith
    rw [hZ]
    rfl
  · apply beq_eq_false_iff_ne.mpr
    intro h
    have hdd := congrArg String.data h
    rw [hZ] at hdd
    have h1 : ("summarize ".data ++ Z).head? = some 's' := rfl
    rw [hdd] at h1
    exact absurd h1 (by decide)
  · unfold pyStartsWith
    rw [hZ]
    exact lpre_append _ _ Z rfl

/-- Branch evaluation of the dispatcher on a four-field
`summarize <repo> issue <t>` input with a non-digit `t`: the reply is the
latest-issue reply. -/
theorem dispatch_latest_t (env : Env) (text repo t : String)
    (hstrip : pyStrip text = text)
    (hsplit : pySplit text = ["summarize", repo, "issue", t])
    (hZ : ∃ Z, (pyLower text).data = "summarize ".data ++ Z)
    (hslash : pyContains repo "/" = true)
    (hdig : pyIsdigit t = false) :
    sms_webhook env text =
      .ok (pyOrStr (summarize_latest_issue env repo)
        "Could not summarize the latest issue.") := by
  obtain ⟨Z, hZ⟩ := hZ
  obtain ⟨g1, g2, g3, g4⟩ := summarize_guards text Z hZ
  unfold sms_webhook
  dsimp only
  rw [hstrip, hsplit, g1, g2, g3, g4]
  rw [show (["summarize", repo, "issue", t] : List String).getD 1 "" = repo from rfl,
    show (["summarize", repo, "issue", t] : List String).getD 2 "" = "issue" from rfl,
    show (["summarize", repo, "issue", t] : List String).getD 3 "" = t from rfl,
    show decide ((["summarize", repo, "issue", t] : List String).length ≥ 3) = true from rfl,
    show decide ((["summarize", repo, "issue", t] : List String).length ≥ 4) = true from rfl,
    show decide ((["summarize", repo, "issue", t] : List String).length ≥ 2) = true from rfl,
    hslash, hdig,
    show (pyLower "issue" == "issue") = true from rfl]
  simp only [Bool.false_and, Bool.true_and, Bool.and_true, Bool.and_false,
    Bool.false_eq_true, if_false, if_true]

/-- Branch evaluation of the dispatcher on a three-field
`summarize <repo> issue` input: the reply is the latest-issue reply. -/
theorem dispatch_latest_bare (env : Env) (text repo : String)
    (hstrip : pyStrip text = text)
    (hsplit : pySplit text = ["summarize", repo, "issue"])
    (hZ : ∃ Z, (pyLower text).data = "summarize ".data ++ Z)
    (hslash : pyContains repo "/" = true) :
    sms_webhook env text =
      .ok (pyOrStr (summarize_latest_issue env repo)
        "Could not summarize the latest issue.") := by
  obtain ⟨Z, hZ⟩ := hZ
  obtain ⟨g1, g2, g3, g4⟩ := summarize_guards text Z hZ
  unfold sms_webhook
  dsimp only
  rw [hstrip, hsplit, g1, g2, g3, g4]
  rw [show (["summarize", repo, "issue"] : List String).getD 1 "" = repo from rfl,
    show (["summarize", repo, "issue"] : List String).getD 2 "" = "issue" from rfl,
    show decide ((["summarize", repo, "issue"] : List String).length ≥ 3) = true from rfl,
    show decide ((["summarize", repo, "issue"] : List String).length ≥ 4) = false from rfl,
    show decide ((["summarize", repo, "issue"] : List String).length ≥ 2) = true from rfl,
    hslash,
    show (pyLower "issue" == "issue") = true from rfl]
  simp only [Bool.false_and, Bool.true_and, Bool.and_true, Bool.and_false,
    Bool.false_eq_true, if_false, if_true]

theorem text1_facts (repo t : String)
    (htne : t.data ≠ []) (htnw : ∀ c ∈ t.data, pws c = false) :
    pyStrip ("summarize " ++ repo ++ " issue " ++ t) =
      ("summarize " ++ repo ++ " issue " ++ t) ∧
    (∃ Z, (pyLower ("summarize " ++ repo ++ " issue " ++ t)).data =
      "summarize ".data ++ Z) := by
  constructor
  · apply pyStrip_eq_self_of_ends
    · intro c hc
      have hd : ("summarize " ++ repo ++ " issue " ++ t).data.head? = some 's' := by
        have : ("summarize " ++ repo ++ " issue " ++ t).data =
            "summarize ".data ++ (repo.data ++ (" issue ".data ++ t.data)) := by
          simp [data_append, List.append_assoc]
        rw [this]
        rfl
      rw [hd] at hc
      cases hc
      decide
    · intro c hc
      obtain ⟨c0, cs0, hts⟩ : ∃ x xs, t.data = x :: xs := by
        cases h : t.data with
        | nil => exact absurd h htne
        | cons x xs => exact ⟨x, xs, rfl⟩
      have hd : ("summarize " ++ repo ++ " issue " ++ t).data =
          ("summarize ".data ++ (repo.data ++ " issue".data)) ++ ' ' :: t.data := by
        simp [data_append, List.append_assoc]
      rw [hd, List.getLast?_append_cons, hts, List.getLast?_cons_cons] at hc
      apply htnw
      rw [hts]
      exact List.mem_of_mem_getLast? hc
  · refine ⟨(repo.data ++ (" issue ".data ++ t.data)).map Char.toLower, ?_⟩
    rw [pyLower_data]
    have : ("summarize " ++ repo ++ " issue " ++ t).data =
        "summarize ".data ++ (repo.data ++ (" issue ".data ++ t.data)) := by
      simp [data_append, List.append_assoc]
    rw [this, List.map_append]
    congr 1

/-- C9: for input `summarize <repo> issue <t>` where the fourth whitespace
token `t` is non-empty but not all digits, the dispatcher silently ignores
`t`: the `isdigit` guard on the specific-issue branch fails, the bare-issue
branch fires, and the reply equals that of `summarize <repo> issue` — the
latest-open-issue summary (no usage error). -/
theorem C9_nondigit_issue_token (env : Env) (repo t : String)
    (hrne : repo.data ≠ []) (hrnw : ∀ c ∈ repo.data, pws c = false)
    (hslash : pyContains repo "/" = true)
    (htne : t.data ≠ []) (htnw : ∀ c ∈ t.data, pws c = false)
    (hdig : pyIsdigit t = false) :
    sms_webhook env ("summarize " ++ repo ++ " issue " ++ t) =
      .ok (pyOrStr (summarize_latest_issue env repo)
        "Could not summarize the latest issue.") ∧
    sms_webhook env ("summarize " ++ repo ++ " issue " ++ t) =
      sms_webhook env ("summarize " ++ repo ++ " issue") := by
  obtain ⟨hstrip1, hZ1⟩ := text1_facts repo t htne htnw
  have hsplit1 := pySplit_sum_issue_t repo t hrne hrnw htne htnw
  have h1 := dispatch_latest_t env _ repo t hstrip1 hsplit1 hZ1 hslash hdig
  have hstrip2 : pyStrip ("summarize " ++ repo ++ " issue") =
      ("summarize " ++ repo ++ " issue") := by
    apply pyStrip_eq_self_of_ends
    · intro c hc
      have hd : ("summarize " ++ repo ++ " issue").data.head? = some 's' := by
        have hx : ("summarize " ++ repo ++ " issue").data =
            "summarize ".data ++ (repo.data ++ " issue".data) := by
          simp [data_append, List.append_assoc]
        rw [hx]
        rfl
      rw [hd] at hc
      cases hc
      decide
    · intro c hc
      have hd : ("summarize " ++ repo ++ " issue").data =
          ("summarize ".data ++ repo.data) ++ " issue".data := by
        simp [data_append, List.append_assoc]
      rw [hd, List.getLast?_append_of_ne_nil _ (by decide)] at hc
      have hce : (" issue" : String).data.getLast? = some 'e' := by decide
      rw [hce] at hc
      cases hc
      decide
  have hZ2 : ∃ Z, (pyLower ("summarize " ++ repo ++ " issue")).data =
      "summarize ".data ++ Z := by
    refine ⟨(repo.data ++ " issue".data).map Char.toLower, ?_⟩
    rw [pyLower_data]
    have hx : ("summarize " ++ repo ++ " issue").data =
        "summarize ".data ++ (repo.data ++ " issue".data) := by
      simp [data_append, List.append_assoc]
    rw [hx, List.map_append]
    congr 1
  have hsplit2 := pySplit_sum_issue repo hrne hrnw
  have h2 := dispatch_latest_bare env _ repo hstrip2 hsplit2 hZ2 hslash
  refine ⟨h1, ?_⟩
  rw [h1, h2]

/-- Witness for C9 at `summarize a/b issue xyz`. -/
theorem C9_nondigit_issue_token_witness :
    sms_webhook oracleEnv ("summarize " ++ "a/b" ++ " issue " ++ "xyz") =
      .ok (pyOrStr (summarize_latest_issue oracleEnv "a/b")
        "Could not summarize the latest issue.") ∧
    sms_webhook oracleEnv ("summarize " ++ "a/b" ++ " issue " ++ "xyz") =
      sms_webhook oracleEnv ("summarize " ++ "a/b" ++ " issue") :=
  C9_nondigit_issue_token oracleEnv "a/b" "xyz" (by decide) (by decide)
    (by decide) (by decide) (by decide) (by decide)

/-! ### C4: the create-issue grammar -/

/-- List-level counterpart of `" ".join`. -/
def ljoin : List (List Char) → List Char
  | [] => []
  | [x] => x
  | x :: y :: rest => x ++ ' ' :: ljoin (y :: rest)

theorem pyJoin_data : ∀ toks : List String,
    (pyJoin " " toks).data = ljoin (toks.map String.data)
  | [] => rfl
  | [x] => rfl
  | x :: y :: rest => by
    show (x ++ " " ++ pyJoin " " (y :: rest)).data =
      x.data ++ ' ' :: ljoin ((y :: rest).map String.data)
    rw [data_append, data_append, pyJoin_data (y :: rest)]
    simp [List.append_assoc]

/-- A command token: non-empty, free of whitespace. -/
def tokOk (l : List Char) : Prop := l ≠ [] ∧ ∀ c ∈ l, pws c = false

theorem lsplitWs_ljoin_append :
    ∀ toks : List (List Char), toks ≠ [] → (∀ tk ∈ toks, tokOk tk) →
      ∀ rest, lsplitWs (ljoin toks ++ ' ' :: rest) = toks ++ lsplitWs rest
  | [], hne, _, _ => absurd rfl hne
  | [t], _, hok, rest => by
    show lsplitWs (t ++ ' ' :: rest) = t :: lsplitWs rest
    exact lsplitWs_token_space t rest (hok t (by simp)).1 (hok t (by simp)).2
  | t :: t2 :: r, _, hok, rest => by
    show lsplitWs ((t ++ ' ' :: ljoin (t2 :: r)) ++ ' ' :: rest) =
      (t :: t2 :: r) ++ lsplitWs rest
    rw [List.append_assoc, List.cons_append]
    rw [lsplitWs_token_space t _ (hok t (by simp)).1 (hok t (by simp)).2]
    rw [lsplitWs_ljoin_append (t2 :: r) (by simp)
      (fun tk htk => hok tk (by simp at htk; rcases htk with h | h <;> simp [h])) rest]
    rfl

theorem lsplitWs_ljoin :
    ∀ toks : List (List Char), toks ≠ [] → (∀ tk ∈ toks, tokOk tk) →
      lsplitWs (ljoin toks) = toks
  | [], hne, _ => absurd rfl hne
  | [t], _, hok => lsplitWs_single t (hok t (by simp)).1 (hok t (by simp)).2
  | t :: t2 :: r, _, hok => by
    show lsplitWs (t ++ ' ' :: ljoin (t2 :: r)) = t :: t2 :: r
    rw [lsplitWs_token_space t _ (hok t (by simp)).1 (hok t (by simp)).2]
    rw [lsplitWs_ljoin (t2 :: r) (by simp)
      (fun tk htk => hok tk (by simp at htk; rcases htk with h | h <;> simp [h]))]

/-- Scanning for a separator that begins with a space never fires inside a
whitespace-free token. -/
theorem lsplitOnce_skip_token (sepTail : List Char) :
    ∀ (tok rest : List Char), (∀ c ∈ tok, pws c = false) →
      lsplitOnce (' ' :: sepTail) (tok ++ rest) =
        (lsplitOnce (' ' :: sepTail) rest).map (fun p => (tok ++ p.1, p.2))
  | [], rest, _ => by
    show lsplitOnce (' ' :: sepTail) rest =
      (lsplitOnce (' ' :: sepTail) rest).map (fun p => ([] ++ p.1, p.2))
    cases lsplitOnce (' ' :: sepTail) rest <;> simp
  | c :: tok2, rest, hnw => by
    have hc : pws c = false := hnw c (by simp)
    have hcs : (' ' == c) = false := by
      apply beq_eq_false_iff_ne.mpr
      intro h
      rw [← h] at hc
      exact absurd hc (by decide)
    show lsplitOnce (' ' :: sepTail) (c :: (tok2 ++ rest)) = _
    have he : lsplitOnce (' ' :: sepTail) (c :: (tok2 ++ rest)) =
        if lpre (' ' :: sepTail) (c :: (tok2 ++ rest))
        then some ([], (c :: (tok2 ++ rest)).drop (' ' :: sepTail).length)
        else (lsplitOnce (' ' :: sepTail) (tok2 ++ rest)).map
          (fun p => (c :: p.1, p.2)) := rfl
    rw [he]
    have hpre : lpre (' ' :: sepTail) (c :: (tok2 ++ rest)) = false := by
      unfold lpre
      rw [hcs]
      simp
    rw [hpre]
    simp only [Bool.false_eq_true, if_false]
    rw [lsplitOnce_skip_token sepTail tok2 rest (fun x hx => hnw x (by simp [hx]))]
    cases lsplitOnce (' ' :: sepTail) rest <;> simp

/-- A whitespace-free token other than `--`, followed by a space, never
completes the `"-- "` tail of the separator. -/
theorem not_dashdash_prefix (tok : List Char) (tail : List Char)
    (hne : tok ≠ []) (hnw : ∀ c ∈ tok, pws c = false) (hdd : tok ≠ ['-', '-']) :
    lpre ['-', '-', ' '] (tok ++ ' ' :: tail) = false := by
  match tok, hne with
  | [c], _ =>
    show lpre ['-', '-', ' '] (c :: ' ' :: tail) = false
    unfold lpre
    unfold lpre
    simp
  | [c1, c2], _ =>
    show lpre ['-', '-', ' '] (c1 :: c2 :: ' ' :: tail) = false
    by_cases h1 : c1 = '-'
    · by_cases h2 : c2 = '-'
      · exact absurd (by rw [h1, h2]) hdd
      · have : ('-' == c2) = false := by
          apply beq_eq_false_iff_ne.mpr
          intro h
          exact h2 h.symm
        unfold lpre
        unfold lpre
        rw [this]
        simp
    · have : ('-' == c1) = false := by
        apply beq_eq_false_iff_ne.mpr
        intro h
        exact h1 h.symm
      unfold lpre
      rw [this]
      simp
  | c1 :: c2 :: c3 :: tok3, _ =>
    show lpre ['-', '-', ' '] (c1 :: c2 :: c3 :: (tok3 ++ ' ' :: tail)) = false
    have hc3 : pws c3 = false := hnw c3 (by simp)
    have h3 : (' ' == c3) = false := by
      apply beq_eq_false_iff_ne.mpr
      intro h
      rw [← h] at hc3
      exact absurd hc3 (by decide)
    unfold lpre
    unfold lpre
    unfold lpre
    rw [h3]
    simp

theorem lpre_refl : ∀ p : List Char, lpre p p = true
  | [] => rfl
  | c :: cs => by
    unfold lpre
    rw [beq_self_eq_true]
    simpa using lpre_refl cs

/-- Splitting once on `" -- "` at the separator inserted after a joined
token sequence, none of whose tokens is `--`. -/
theorem lsplitOnce_ljoin_sep :
    ∀ toks : List (List Char), toks ≠ [] →
      (∀ tk ∈ toks, tokOk tk ∧ tk ≠ ['-', '-']) →
      ∀ body : List Char,
        lsplitOnce [' ', '-', '-', ' '] (ljoin toks ++ ([' ', '-', '-', ' '] ++ body)) =
          some (ljoin toks, body)
  | [], hne, _, _ => absurd rfl hne
  | [t], _, hok, body => by
    show lsplitOnce [' ', '-', '-', ' '] (t ++ ([' ', '-', '-', ' '] ++ body)) =
      some (t, body)
    rw [lsplitOnce_skip_token _ t _ (hok t (by simp)).1.2]
    have he : lsplitOnce [' ', '-', '-', ' '] ([' ', '-', '-', ' '] ++ body) =
        if lpre [' ', '-', '-', ' '] ([' ', '-', '-', ' '] ++ body)
        then some ([], ([' ', '-', '-', ' '] ++ body).drop
          ([' ', '-', '-', ' '] : List Char).length)
        else (lsplitOnce [' ', '-', '-', ' '] ('-' :: '-' :: ' ' :: body)).map
          (fun p => (' ' :: p.1, p.2)) := rfl
    rw [he, lpre_append _ _ body (lpre_refl _)]
    simp only [if_true]
    rw [List.drop_left]
    simp
  | t :: t2 :: r, _, hok, body => by
    show lsplitOnce [' ', '-', '-', ' ']
        ((t ++ ' ' :: ljoin (t2 :: r)) ++ ([' ', '-', '-', ' '] ++ body)) =
      some (t ++ ' ' :: ljoin (t2 :: r), body)
    rw [List.append_assoc, List.cons_append]
    rw [lsplitOnce_skip_token _ t _ (hok t (by simp)).1.2]
    obtain ⟨Y, hY⟩ : ∃ Y, ljoin (t2 :: r) ++ ([' ', '-', '-', ' '] ++ body) =
        t2 ++ ' ' :: Y := by
      cases r with
      | nil => exact ⟨'-' :: '-' :: ' ' :: body, by simp [ljoin]⟩
      | cons t3 r2 =>
        exact ⟨ljoin (t3 :: r2) ++ ([' ', '-', '-', ' '] ++ body),
          by simp [ljoin, List.append_assoc]⟩
    have hok2 := hok t2 (by simp)
    have hnd : lpre ['-', '-', ' '] (ljoin (t2 :: r) ++ ([' ', '-', '-', ' '] ++ body)) =
        false := by
      rw [hY]
      exact not_dashdash_prefix t2 Y hok2.1.1 hok2.1.2 hok2.2
    have he : lsplitOnce [' ', '-', '-', ' ']
        (' ' :: (ljoin (t2 :: r) ++ ([' ', '-', '-', ' '] ++ body))) =
        if lpre [' ', '-', '-', ' ']
          (' ' :: (ljoin (t2 :: r) ++ ([' ', '-', '-', ' '] ++ body)))
        then some ([], (' ' :: (ljoin (t2 :: r) ++ ([' ', '-', '-', ' '] ++ body))).drop
          ([' ', '-', '-', ' '] : List Char).length)
        else (lsplitOnce [' ', '-', '-', ' ']
          (ljoin (t2 :: r) ++ ([' ', '-', '-', ' '] ++ body))).map
          (fun p => (' ' :: p.1, p.2)) := rfl
    rw [he]
    have hpre : lpre [' ', '-', '-', ' ']
        (' ' :: (ljoin (t2 :: r) ++ ([' ', '-', '-', ' '] ++ body))) = false := by
      unfold lpre
      rw [hnd]
      simp
    rw [hpre]
    simp only [Bool.false_eq_true, if_false]
    rw [lsplitOnce_ljoin_sep (t2 :: r) (by simp)
      (fun tk htk => hok tk (by simp at htk; rcases htk with h | h <;> simp [h])) body]
    simp

theorem lsplitOnce_eq_none_iff (sep : List Char) :
    ∀ l, lsplitOnce sep l = none ↔ lsub sep l = false := by
  intro l
  induction l with
  | nil =>
    unfold lsplitOnce lsub
    cases hp : lpre sep [] <;> simp [hp]
  | cons c cs ih =>
    unfold lsplitOnce lsub
    cases hp : lpre sep (c :: cs) <;> simp [hp, Option.map_eq_none', ih]

theorem pySplit_pyJoin (toks : List String) (hne : toks ≠ [])
    (hok : ∀ s ∈ toks, tokOk s.data) :
    pySplit (pyJoin " " toks) = toks := by
  unfold pySplit
  rw [pyJoin_data, lsplitWs_ljoin (toks.map String.data)
    (by simpa using hne)
    (by intro tk htk
        simp only [List.mem_map] at htk
        obtain ⟨s, hs, rfl⟩ := htk
        exact hok s hs)]
  rw [List.map_map]
  have hmk : ∀ s : String, (⟨s.data⟩ : String) = s := fun s => rfl
  calc toks.map (fun s => (⟨s.data⟩ : String)) = toks.map id := by
        apply List.map_congr_left
        intro s _
        exact hmk s
    _ = toks := List.map_id toks

theorem createText_data (repo : String) (titleToks : List String) (body : String) :
    (pyJoin " " ("create" :: "issue" :: repo :: titleToks) ++ " -- " ++ body).data =
      ljoin (("create" :: "issue" :: repo :: titleToks).map String.data) ++
        ([' ', '-', '-', ' '] ++ body.data) := by
  rw [data_append, data_append, pyJoin_data]
  simp [List.append_assoc]

theorem parseCreateIssue_extracts (repo : String) (titleToks : List String)
    (body : String)
    (hr : tokOk repo.data) (hrd : repo.data ≠ ['-', '-'])
    (ht : ∀ s ∈ titleToks, tokOk s.data ∧ s.data ≠ ['-', '-']) :
    parseCreateIssue
      (pyJoin " " ("create" :: "issue" :: repo :: titleToks) ++ " -- " ++ body) =
      some (repo, pyJoin " " titleToks, body) := by
  have hokAll : ∀ tk ∈ ("create" :: "issue" :: repo :: titleToks).map String.data,
      tokOk tk ∧ tk ≠ ['-', '-'] := by
    intro tk htk
    simp only [List.map_cons, List.mem_cons, List.mem_map] at htk
    rcases htk with rfl | rfl | rfl | ⟨s, hs, rfl⟩
    · exact ⟨⟨by decide, by decide⟩, by decide⟩
    · exact ⟨⟨by decide, by decide⟩, by decide⟩
    · exact ⟨hr, hrd⟩
    · exact ht s hs
  have hsplitonce : pySplitOnce " -- "
      (pyJoin " " ("create" :: "issue" :: repo :: titleToks) ++ " -- " ++ body) =
      some (pyJoin " " ("create" :: "issue" :: repo :: titleToks), body) := by
    unfold pySplitOnce
    rw [createText_data]
    rw [show (" -- " : String).data = [' ', '-', '-', ' '] from rfl]
    rw [lsplitOnce_ljoin_sep _ (by simp) hokAll body.data]
    simp only [Option.map_some']
    rw [← pyJoin_data]
  unfold parseCreateIssue
  rw [hsplitonce]
  dsimp only
  rw [pySplit_pyJoin ("create" :: "issue" :: repo :: titleToks) (by simp)
    (by intro s hs
        simp only [List.mem_cons] at hs
        rcases hs with rfl | rfl | rfl | hs
        · exact ⟨by decide, by decide⟩
        · exact ⟨by decide, by decide⟩
        · exact hr
        · exact (ht s hs).1)]

/-- Guards of the dispatcher for any text whose lowering starts with
`create issue `. -/
theorem createissue_guards (text : String) (Z : List Char)
    (hZ : (pyLower text).data = "create issue ".data ++ Z) :
    pyStartsWith "create repo" (pyLower text) = false ∧
    pyStartsWith "create issue" (pyLower text) = true ∧
    (pyLower text == "help") = false ∧
    pyStartsWith "summarize" (pyLower text) = false := by
  refine ⟨?_, ?_, ?_, ?_⟩
  · unfold pyStartsWith
    rw [hZ]
    rfl
  · unfold pyStartsWith
    rw [hZ]
    exact lpre_append _ _ Z rfl
  · apply beq_eq_false_iff_ne.mpr
    intro h
    have hdd := congrArg String.data h
    rw [hZ] at hdd
    have h1 : ("create issue ".data ++ Z).head? = some 'c' := rfl
    rw [hdd] at h1
    exact absurd h1 (by decide)
  · unfold pyStartsWith
    rw [hZ]
    rfl

theorem createText_lower (repo : String) (titleToks : List String) (body : String) :
    ∃ Z, (pyLower (pyJoin " " ("create" :: "issue" :: repo :: titleToks) ++
      " -- " ++ body)).data = "create issue ".data ++ Z := by
  refine ⟨(ljoin ((repo :: titleToks).map String.data) ++
    ([' ', '-', '-', ' '] ++ body.data)).map Char.toLower, ?_⟩
  rw [pyLower_data, createText_data]
  have hsh : ljoin (("create" :: "issue" :: repo :: titleToks).map String.data) ++
      ([' ', '-', '-', ' '] ++ body.data) =
      "create issue ".data ++ (ljoin ((repo :: titleToks).map String.data) ++
        ([' ', '-', '-', ' '] ++ body.data)) := by
    show ("create".data ++ ' ' :: ("issue".data ++ ' ' ::
        ljoin ((repo :: titleToks).map String.data))) ++
        ([' ', '-', '-', ' '] ++ body.data) = _
    simp [List.append_assoc]
  rw [hsh, List.map_append]
  congr 1

theorem createText_strip (repo : String) (titleToks : List String) (body : String)
    (hbne : body.data ≠ [])
    (hblast : ∀ c, body.data.getLast? = some c → pws c = false) :
    pyStrip (pyJoin " " ("create" :: "issue" :: repo :: titleToks) ++
      " -- " ++ body) =
      pyJoin " " ("create" :: "issue" :: repo :: titleToks) ++ " -- " ++ body := by
  apply pyStrip_eq_self_of_ends
  · intro c hc
    rw [createText_data] at hc
    have hh : (ljoin (("create" :: "issue" :: repo :: titleToks).map String.data) ++
        ([' ', '-', '-', ' '] ++ body.data)).head? = some 'c' := by
      show (("create".data ++ ' ' :: ("issue".data ++ ' ' ::
        ljoin ((repo :: titleToks).map String.data))) ++
        ([' ', '-', '-', ' '] ++ body.data)).head? = some 'c'
      rfl
    rw [hh] at hc
    cases hc
    decide
  · intro c hc
    have hd : (pyJoin " " ("create" :: "issue" :: repo :: titleToks) ++
        " -- " ++ body).data =
        (pyJoin " " ("create" :: "issue" :: repo :: titleToks) ++ " -- ").data ++
          body.data := by
      rw [data_append]
    rw [hd, List.getLast?_append_of_ne_nil _ hbne] at hc
    exact hblast c hc

theorem createText_partslen (repo : String) (titleToks : List String) (body : String)
    (hr : tokOk repo.data)
    (ht : ∀ s ∈ titleToks, tokOk s.data) :
    (pySplit (pyJoin " " ("create" :: "issue" :: repo :: titleToks) ++
      " -- " ++ body)).length ≥ 4 := by
  unfold pySplit
  rw [createText_data]
  have hx : ljoin (("create" :: "issue" :: repo :: titleToks).map String.data) ++
      ([' ', '-', '-', ' '] ++ body.data) =
      ljoin (("create" :: "issue" :: repo :: titleToks).map String.data) ++
        ' ' :: (['-', '-'] ++ ' ' :: body.data) := by
    simp
  rw [hx]
  rw [lsplitWs_ljoin_append (("create" :: "issue" :: repo :: titleToks).map String.data)
    (by simp)
    (by intro tk htk
        simp only [List.map_cons, List.mem_cons, List.mem_map] at htk
        rcases htk with rfl | rfl | rfl | ⟨s, hs, rfl⟩
        · exact ⟨by decide, by decide⟩
        · exact ⟨by decide, by decide⟩
        · exact hr
        · exact ht s hs)]
  rw [lsplitWs_token_space ['-', '-'] body.data (by decide) (by decide)]
  simp only [List.length_append, List.length_map, List.length_cons]
  omega

theorem dispatch_create_issue_hit (env : Env) (text repo title body : String)
    (hstrip : pyStrip text = text)
    (hZ : ∃ Z, (pyLower text).data = "create issue ".data ++ Z)
    (hlen : (pySplit text).length ≥ 4)
    (hparse : parseCreateIssue text = some (repo, title, body)) :
    sms_webhook env text = .ok ("Failed to create issue in '" ++ repo ++ "'.") := by
  obtain ⟨Z, hZ⟩ := hZ
  obtain ⟨g1, g2, g3, g4⟩ := createissue_guards text Z hZ
  unfold sms_webhook
  dsimp only
  rw [hstrip, g1, g2, decide_eq_true hlen, hparse]
  simp only [Bool.false_and, Bool.true_and, Bool.and_true, Bool.false_eq_true,
    if_false, if_true]
  rfl

theorem dispatch_create_issue_usage (env : Env) (text : String)
    (hstrip : pyStrip text = text)
    (hZ : ∃ Z, (pyLower text).data = "create issue ".data ++ Z)
    (hlen : (pySplit text).length ≥ 4)
    (hnosep : pyContains text " -- " = false) :
    sms_webhook env text = .ok usageMsg := by
  obtain ⟨Z, hZ⟩ := hZ
  obtain ⟨g1, g2, g3, g4⟩ := createissue_guards text Z hZ
  have hparse : parseCreateIssue text = none := by
    unfold parseCreateIssue pySplitOnce
    rw [(lsplitOnce_eq_none_iff (" -- " : String).data text.data).mpr hnosep]
    rfl
  unfold sms_webhook
  dsimp only
  rw [hstrip, g1, g2, decide_eq_true hlen, hparse]
  simp only [Bool.false_and, Bool.true_and, Bool.and_true, Bool.false_eq_true,
    if_false, if_true]

theorem dispatch_create_issue_fallthrough (env : Env) (text : String)
    (hstrip : pyStrip text = text)
    (hZ : ∃ Z, (pyLower text).data = "create issue ".data ++ Z)
    (hlen : (pySplit text).length < 4) :
    sms_webhook env text = fallbackReply env text := by
  obtain ⟨Z, hZ⟩ := hZ
  obtain ⟨g1, g2, g3, g4⟩ := createissue_guards text Z hZ
  unfold sms_webhook
  dsimp only
  rw [hstrip, g1, g2, g3, g4, decide_eq_false (by omega : ¬ (pySplit text).length ≥ 4)]
  simp only [Bool.false_and, Bool.true_and, Bool.and_false, Bool.false_eq_true,
    if_false, if_true]

/-- C4 amended: the claim fails as stated for inputs with fewer than four
whitespace fields (counterexample: the branch guard `len(parts) >= 4` makes
the text fall through to the natural-language router, not the usage message).
What holds: (1) for `create issue <repo> <title...> -- <body>` with
whitespace-free fields none of which is the bare token `--` and a body not
ending in whitespace, the parser extracts repo = 3rd field before the
separator, title = the remaining fields joined by spaces, body = everything
after the separator unsplit, and the reply is the (stub-failure)
create-issue message for that repo; (2) with at least 4 fields and no
`" -- "` separator the reply is the usage message; (3) with fewer than 4
fields the dispatcher's reply is the natural-language fallback reply. -/
theorem C4_create_issue_grammar :
    (∀ (env : Env) (repo : String) (titleToks : List String) (body : String),
      tokOk repo.data → repo.data ≠ ['-', '-'] →
      titleToks ≠ [] →
      (∀ s ∈ titleToks, tokOk s.data ∧ s.data ≠ ['-', '-']) →
      body.data ≠ [] →
      (∀ c, body.data.getLast? = some c → pws c = false) →
      parseCreateIssue
        (pyJoin " " ("create" :: "issue" :: repo :: titleToks) ++ " -- " ++ body) =
        some (repo, pyJoin " " titleToks, body) ∧
      sms_webhook env
        (pyJoin " " ("create" :: "issue" :: repo :: titleToks) ++ " -- " ++ body) =
        .ok ("Failed to create issue in '" ++ repo ++ "'.")) ∧
    (∀ (env : Env) (text : String),
      pyStrip text = text →
      (∃ Z, (pyLower text).data = "create issue ".data ++ Z) →
      (pySplit text).length ≥ 4 →
      pyContains text " -- " = false →
      sms_webhook env text = .ok usageMsg) ∧
    (∀ (env : Env) (text : String),
      pyStrip text = text →
      (∃ Z, (pyLower text).data = "create issue ".data ++ Z) →
      (pySplit text).length < 4 →
      sms_webhook env text = fallbackReply env text) := by
  refine ⟨?_, dispatch_create_issue_usage, dispatch_create_issue_fallthrough⟩
  intro env repo titleToks body hr hrd htne ht hbne hblast
  have hparse := parseCreateIssue_extracts repo titleToks body hr hrd ht
  refine ⟨hparse, ?_⟩
  exact dispatch_create_issue_hit env _ repo (pyJoin " " titleToks) body
    (createText_strip repo titleToks body hbne hblast)
    (createText_lower repo titleToks body)
    (createText_partslen repo titleToks body hr (fun s hs => (ht s hs).1))
    hparse

/-- Counterexample to C4 as stated: `create issue foo` has the separator
absent and three fields, so the claim requires the usage message, but the
dispatcher falls through to natural-language routing and (with the LLM down)
replies with the unrecognized-command message instead. -/
theorem C4_counterexample_three_tokens :
    sms_webhook envLLMDown "create issue foo" = .ok unrecognizedMsg ∧
    unrecognizedMsg ≠ usageMsg := by
  constructor
  · rfl
  · decide

/-- Witness for C4 (amended) at the spec's worked example:
`create issue vercel/next.js Bug report -- Something broke`. -/
theorem C4_create_issue_grammar_witness :
    parseCreateIssue
      (pyJoin " " ("create" :: "issue" :: "vercel/next.js" :: ["Bug", "report"]) ++
        " -- " ++ "Something broke") =
      some ("vercel/next.js", pyJoin " " ["Bug", "report"], "Something broke") ∧
    sms_webhook oracleEnv
      (pyJoin " " ("create" :: "issue" :: "vercel/next.js" :: ["Bug", "report"]) ++
        " -- " ++ "Something broke") =
      .ok ("Failed to create issue in '" ++ "vercel/next.js" ++ "'.") :=
  C4_create_issue_grammar.1 oracleEnv "vercel/next.js" ["Bug", "report"]
    "Something broke" ⟨by decide, by decide⟩ (by decide) (by decide)
    (by intro s hs
        simp only [List.mem_cons, List.not_mem_nil, or_false] at hs
        rcases hs with rfl | rfl
        · exact ⟨⟨by decide, by decide⟩, by decide⟩
        · exact ⟨⟨by decide, by decide⟩, by decide⟩)
    (by decide) (by decide)
